import Mathlib

/-!
# Verification of BalatroBot (GameStates.py, BalatroObjects.py)

A shallow embedding of the two Python modules of the BalatroBot repository.
Python integers are modelled as `Int`, Python floats that the code only ever
combines through exact half-integer arithmetic as `ℚ`, attribute dictionaries
of partially-initialised objects as records of `Option` fields, `raise` as
`Except.error` paired with the (unchanged) object state, and the random draw
in `BuyState.simulate` as an explicit choice parameter reduced modulo the
list length.  `print` calls have no effect on program state and are dropped.
-/

namespace BalatroBot

/-- `Card` from BalatroObjects.py: name, suit and chip value (effects list
omitted; no claim touches it and `Hand` never reads its cards). -/
structure Card where
  name : String
  suit : String
  chip_value : Int
deriving DecidableEq

/-- A shop item dictionary `{name: ..., cost: ...}` as read by
`BuyState.get_actions` and `BuyState.simulate` (only the `"name"` and
`"cost"` keys are ever accessed). -/
structure Item where
  name : String
  cost : Int
deriving DecidableEq

/-- The player / ledger object that `Effect.apply` mutates: the code touches
only the `chips` and `double_bet` attributes. -/
structure Player where
  chips : Int
  double_bet : Bool
deriving DecidableEq

/-- `Effect` from BalatroObjects.py: an effect type string and an optional
numeric value (`value=None` by default in the Python constructor). -/
structure Effect where
  effect_type : String
  value : Option Int
deriving DecidableEq

/-- `Effect.apply` from BalatroObjects.py lines 18-34: the `if/elif/else`
chain.  `increase_chips` with a present value adds it to `player.chips`;
`double_bet` sets `player.double_bet = True`; `swap_cards` only prints;
the `else` branch only prints ("Unknown effect"). -/
def Effect.apply (e : Effect) (player : Player) : Player :=
  if e.effect_type = "increase_chips" ∧ e.value ≠ none then
    { player with chips := player.chips + e.value.getD 0 }
  else if e.effect_type = "double_bet" then
    { player with double_bet := true }
  else if e.effect_type = "swap_cards" then
    player
  else
    player

/-- `Hand.HAND_BASE_MULTIPLIERS` from BalatroObjects.py lines 112-122, as an
association list in source order.  The Python floats are all exact
half-integers, embedded in `ℚ`. -/
def HAND_BASE_MULTIPLIERS : List (String × ℚ) :=
  [("High Card", 1), ("Pair", 3/2), ("Two Pair", 2), ("Three of a Kind", 5/2),
   ("Straight", 3), ("Flush", 7/2), ("Full House", 4), ("Four of a Kind", 5),
   ("Straight Flush", 7)]

/-- `Hand.HAND_BASE_CHIPS` from BalatroObjects.py lines 124-135, in source
order.  Note the extra key `"Royal Flush"` that has no multiplier entry. -/
def HAND_BASE_CHIPS : List (String × Int) :=
  [("High Card", 5), ("Pair", 10), ("Two Pair", 15), ("Three of a Kind", 20),
   ("Straight", 30), ("Flush", 40), ("Full House", 50), ("Four of a Kind", 75),
   ("Straight Flush", 100), ("Royal Flush", 150)]

/-- A fully constructed `Hand` object: the attributes `Hand.__init__` assigns
when it does not raise. -/
structure Hand where
  name : String
  cards : List Card
  level : Nat
  base_chips : Int
  base_multiplier : ℚ
deriving DecidableEq

/-- `Hand.__init__` from BalatroObjects.py lines 137-151: raises `ValueError`
when `name` is not a key of `HAND_BASE_MULTIPLIERS`; otherwise sets
`level = 1` and looks the base values up in both tables (the chip lookup is
a raw `dict[...]` access, hence the `KeyError` branch, unreachable for the
nine multiplier keys). -/
def Hand.init (name : String) (cards : List Card) : Except String Hand :=
  match HAND_BASE_MULTIPLIERS.lookup name with
  | none => Except.error ("Invalid hand name: " ++ name)
  | some m =>
    match HAND_BASE_CHIPS.lookup name with
    | none => Except.error ("KeyError: " ++ name)
    | some c => Except.ok ⟨name, cards, 1, c, m⟩

/-- `Hand.calculate_chips`: `base_chips * level`. -/
def Hand.calculate_chips (h : Hand) : Int :=
  h.base_chips * (h.level : Int)

/-- `Hand.calculate_multiplier`: `base_multiplier * level`. -/
def Hand.calculate_multiplier (h : Hand) : ℚ :=
  h.base_multiplier * (h.level : ℚ)

/-- `Hand.level_up`: `self.level += 1` (plus a print). -/
def Hand.level_up (h : Hand) : Hand :=
  { h with level := h.level + 1 }

/-- `n` successive `level_up` calls. -/
def Hand.levelUps (h : Hand) : Nat → Hand
  | 0 => h
  | n + 1 => (h.levelUps n).level_up

/-- The attribute dictionary of a `GameState` node (GameStates.py).  Python
objects start with no attributes; `__init__` assigns some of them.  `none`
means "never assigned" (so reading it raises `AttributeError`).  The fields
cover every attribute assigned by `GameState.__init__`,
`PlayState.__init__` or `BuyState.__init__`; the `parent` attribute stores
an optional reference, abstracted here to an optional tag. -/
structure NodeAttrs where
  state_type : Option String
  parent : Option (Option String)
  children : Option (List String)
  visits : Option Int
  value : Option ℚ
  hand : Option (List Card)
  chips : Option Int
  multiplier : Option ℚ
  required_score : Option Int
  current_score : Option Int
  rounds_remaining : Option Int
  jokers : Option (List String)
  active_buffs : Option (List String)
  is_boss_round : Option Bool
  played_hands : Option (List String)
  bonus_cards_used : Option Int
  score_multiplier_history : Option (List ℚ)
  shop_items : Option (List Item)
  money : Option Int
  jokers_owned : Option (List String)
  rerolls_remaining : Option Int
  shop_level : Option Int
  bonus_discount : Option Int
  items_purchased : Option (List String)
  free_reroll_used : Option Bool
deriving DecidableEq

/-- A freshly allocated object, before any `__init__` runs: no attribute
assigned. -/
def NodeAttrs.unset : NodeAttrs :=
  ⟨none, none, none, none, none, none, none, none, none, none, none, none,
   none, none, none, none, none, none, none, none, none, none, none, none,
   none⟩

/-- `GameState.__init__` from GameStates.py lines 8-13: assigns
`state_type`, `parent`, `children = []`, `visits = 0`, `value = 0.0`. -/
def GameState.initAttrs (state_type : String) (parent : Option String) :
    NodeAttrs :=
  { NodeAttrs.unset with
    state_type := some state_type
    parent := some parent
    children := some []
    visits := some 0
    value := some 0 }

/-- `PlayState.__init__` from GameStates.py lines 45-59.  It does NOT call
`GameState.__init__` (no `super().__init__(...)` appears), so
`state_type`, `parent`, `children`, `visits` and `value` are never
assigned; it assigns only its own eight parameters and the four optional
attributes. -/
def PlayState.initAttrs (hand : List Card) (chips : Int) (multiplier : ℚ)
    (required_score current_score rounds_remaining : Int)
    (jokers active_buffs : List String) : NodeAttrs :=
  { NodeAttrs.unset with
    hand := some hand
    chips := some chips
    multiplier := some multiplier
    required_score := some required_score
    current_score := some current_score
    rounds_remaining := some rounds_remaining
    jokers := some jokers
    active_buffs := some active_buffs
    is_boss_round := some false
    played_hands := some []
    bonus_cards_used := some 0
    score_multiplier_history := some [] }

/-- `BuyState.__init__` from GameStates.py lines 82-92.  Like
`PlayState.__init__` it never calls `GameState.__init__`, so the MCTS
bookkeeping attributes stay unassigned. -/
def BuyState.initAttrs (shop_items : List Item) (money : Int)
    (jokers_owned : List String) (rerolls_remaining shop_level : Int) :
    NodeAttrs :=
  { NodeAttrs.unset with
    shop_items := some shop_items
    money := some money
    jokers_owned := some jokers_owned
    rerolls_remaining := some rerolls_remaining
    shop_level := some shop_level
    bonus_discount := some 0
    items_purchased := some []
    free_reroll_used := some false }

/-- `GameState.is_terminal` on the abstract base (GameStates.py lines
15-20): `raise NotImplementedError`, leaving the object untouched.  A
method call is modelled as `object → result × post-state`. -/
def GameState.is_terminal (g : NodeAttrs) : Except String Bool × NodeAttrs :=
  (Except.error "NotImplementedError", g)

/-- `GameState.get_actions` on the abstract base (GameStates.py lines
22-27): `raise NotImplementedError`. -/
def GameState.get_actions (g : NodeAttrs) :
    Except String (List String) × NodeAttrs :=
  (Except.error "NotImplementedError", g)

/-- `GameState.simulate` on the abstract base (GameStates.py lines 29-34):
`raise NotImplementedError`. -/
def GameState.simulate (g : NodeAttrs) : Except String ℚ × NodeAttrs :=
  (Except.error "NotImplementedError", g)

/-- `Consumable` from BalatroObjects.py lines 246-254: name, cost,
description, rarity. -/
structure Consumable where
  name : String
  cost : Int
  description : String
  rarity : String
deriving DecidableEq

/-- `Consumable.apply_effect` on the abstract base (BalatroObjects.py lines
256-261): `raise NotImplementedError(...)`, mutating neither the consumable
nor the game state (here: the ledger it would act on). -/
def Consumable.apply_effect (c : Consumable) (game_state : Player) :
    Except String Unit × Player :=
  (Except.error "Each consumable card must implement its own effect.",
   game_state)

/-- A fully typed `PlayState` object: the attributes its `__init__`
assigns. -/
structure PlayState where
  hand : List Card
  chips : Int
  multiplier : ℚ
  required_score : Int
  current_score : Int
  rounds_remaining : Int
  jokers : List String
  active_buffs : List String
  is_boss_round : Bool
  played_hands : List String
  bonus_cards_used : Int
  score_multiplier_history : List ℚ
deriving DecidableEq

/-- `PlayState.__init__` as a typed constructor (GameStates.py lines
45-59): the optional attributes start as `False`, `[]`, `0`, `[]`. -/
def PlayState.init (hand : List Card) (chips : Int) (multiplier : ℚ)
    (required_score current_score rounds_remaining : Int)
    (jokers active_buffs : List String) : PlayState :=
  ⟨hand, chips, multiplier, required_score, current_score, rounds_remaining,
   jokers, active_buffs, false, [], 0, []⟩

/-- `PlayState.is_terminal` from GameStates.py lines 61-63:
`current_score >= required_score or rounds_remaining <= 0`.  The method
reads two attributes and assigns nothing, so it is a pure function of the
state. -/
def PlayState.is_terminal (s : PlayState) : Bool :=
  decide (s.current_score ≥ s.required_score) ||
    decide (s.rounds_remaining ≤ 0)

/-- A fully typed `BuyState` object: the attributes its `__init__`
assigns. -/
structure BuyState where
  shop_items : List Item
  money : Int
  jokers_owned : List String
  rerolls_remaining : Int
  shop_level : Int
  bonus_discount : Int
  items_purchased : List String
  free_reroll_used : Bool
deriving DecidableEq

/-- `BuyState.__init__` as a typed constructor (GameStates.py lines
82-92). -/
def BuyState.init (shop_items : List Item) (money : Int)
    (jokers_owned : List String) (rerolls_remaining shop_level : Int) :
    BuyState :=
  ⟨shop_items, money, jokers_owned, rerolls_remaining, shop_level, 0, [],
   false⟩

/-- `BuyState.get_actions` from GameStates.py lines 98-100: the list
comprehension `[item["name"] for item in self.shop_items if item["cost"]
<= self.money]`. -/
def BuyState.get_actions (s : BuyState) : List String :=
  s.shop_items.filterMap fun item =>
    if item.cost ≤ s.money then some item.name else none

/-- `BuyState.simulate` from GameStates.py lines 102-109: filter the
affordable items; if none, reward `0`; otherwise `random.choice` draws one
affordable item and the reward is `cost / 10` (Python true division,
embedded in `ℚ`).  The random draw is modelled by a `choice` parameter
reduced modulo the length of the affordable list, so every `choice` value
names some element the random draw could return.  Nothing is purchased:
the method assigns no attribute, so the post-state is the input state. -/
def BuyState.simulate (s : BuyState) (choice : Nat) : ℚ × BuyState :=
  let affordable := s.shop_items.filter fun item => decide (item.cost ≤ s.money)
  if affordable.isEmpty then (0, s)
  else (((affordable.getD (choice % affordable.length) ⟨"", 0⟩).cost : ℚ) / 10,
        s)

/-- `BossBlinds` from BalatroObjects.py lines 331-349: the attributes the
constructor assigns.  `special_rules` is a dict of rule name to numeric
value, as consumed by `apply_boss_rules`. -/
structure BossBlinds where
  small_blind : Int
  big_blind : Int
  escalation_rate : Int
  max_blind_cap : Int
  difficulty_level : Int
  special_rules : List (String × Int)
  round_counter : Int
  boss_mode_active : Bool
deriving DecidableEq

/-- `BossBlinds.__init__`: `round_counter = 0`, `boss_mode_active = False`;
the blinds, rates and cap are taken as given, without clamping. -/
def BossBlinds.init (small_blind big_blind escalation_rate max_blind_cap
    difficulty_level : Int) (special_rules : List (String × Int)) :
    BossBlinds :=
  ⟨small_blind, big_blind, escalation_rate, max_blind_cap, difficulty_level,
   special_rules, 0, false⟩

/-- `BossBlinds.activate_boss_mode` (lines 351-356): sets the flag. -/
def BossBlinds.activate_boss_mode (b : BossBlinds) : BossBlinds :=
  { b with boss_mode_active := true }

/-- `BossBlinds.deactivate_boss_mode` (lines 358-363): clears the flag. -/
def BossBlinds.deactivate_boss_mode (b : BossBlinds) : BossBlinds :=
  { b with boss_mode_active := false }

/-- `BossBlinds.increase_boss_blinds` from BalatroObjects.py lines 365-376:
when boss mode is active, increment `round_counter`; once it reaches
`difficulty_level * escalation_rate`, raise both blinds by 5 clamped with
`min(..., max_blind_cap)` and reset the counter. -/
def BossBlinds.increase_boss_blinds (b : BossBlinds) : BossBlinds :=
  if b.boss_mode_active then
    let b' := { b with round_counter := b.round_counter + 1 }
    if b'.round_counter ≥ b'.difficulty_level * b'.escalation_rate then
      { b' with
        small_blind := min (b'.small_blind + 5) b'.max_blind_cap
        big_blind := min (b'.big_blind + 5) b'.max_blind_cap
        round_counter := 0 }
    else b'
  else b

/-- `n` successive `increase_boss_blinds` calls. -/
def BossBlinds.ticks (b : BossBlinds) : Nat → BossBlinds
  | 0 => b
  | n + 1 => (b.ticks n).increase_boss_blinds

/-- `BossBlinds.apply_boss_rules` from BalatroObjects.py lines 378-392:
walks `special_rules` and mutates only the game state (`bonus_chips` adds
chips, `double_bet` sets the flag, anything else only prints); the
`BossBlinds` object itself is untouched. -/
def BossBlinds.apply_boss_rules (b : BossBlinds) (game_state : Player) :
    Player :=
  b.special_rules.foldl
    (fun gs rule =>
      if rule.1 = "bonus_chips" then { gs with chips := gs.chips + rule.2 }
      else if rule.1 = "double_bet" then { gs with double_bet := true }
      else gs)
    game_state

/-- The four methods a `BossBlinds` object can run, for reachability
statements. -/
inductive BossOp where
  | activate
  | deactivate
  | tick
  | applyRules
deriving DecidableEq

/-- Effect of one method call on the `BossBlinds` object itself
(`apply_boss_rules` mutates only its `game_state` argument, never
`self`). -/
def BossBlinds.applyOp (b : BossBlinds) : BossOp → BossBlinds
  | BossOp.activate => b.activate_boss_mode
  | BossOp.deactivate => b.deactivate_boss_mode
  | BossOp.tick => b.increase_boss_blinds
  | BossOp.applyRules => b

/-- Run a call sequence left to right. -/
def BossBlinds.runOps (b : BossBlinds) (ops : List BossOp) : BossBlinds :=
  ops.foldl BossBlinds.applyOp b

/-! ## Theorems for the claims -/

/-- C1: the claim says every node built via the `PlayState` and `BuyState`
constructors starts with `visits = 0`, `value = 0.0` and empty `children`.
The code disagrees: those constructors never call `GameState.__init__`, so
on a freshly built `PlayState` or `BuyState` the three attributes are not
assigned at all (reading them raises `AttributeError`), while a node built
via the base constructor does get `0`, `0.0`, `[]`.  This theorem
evaluates the constructors at concrete inputs and exhibits the
divergence. -/
theorem C1_subclass_constructors_skip_mcts_fields :
    (PlayState.initAttrs [] 0 1 100 0 3 [] []).visits = none ∧
    (PlayState.initAttrs [] 0 1 100 0 3 [] []).value = none ∧
    (PlayState.initAttrs [] 0 1 100 0 3 [] []).children = none ∧
    (BuyState.initAttrs [] 10 [] 0 1).visits = none ∧
    (BuyState.initAttrs [] 10 [] 0 1).value = none ∧
    (BuyState.initAttrs [] 10 [] 0 1).children = none ∧
    (GameState.initAttrs "Play" none).visits = some 0 ∧
    (GameState.initAttrs "Play" none).value = some 0 ∧
    (GameState.initAttrs "Play" none).children = some [] := by
  decide

/-- C3: constructing a `Hand` with any name outside the nine
multiplier-bearing categories yields the invalid-hand-name error and no
object; in particular `"Royal Flush"` (a chip-table key with no multiplier
entry) is rejected rather than defaulted. -/
theorem C3_invalid_hand_name_rejected (name : String) (cards : List Card)
    (h : name ∉ HAND_BASE_MULTIPLIERS.map Prod.fst) :
    Hand.init name cards = Except.error ("Invalid hand name: " ++ name) ∧
    Hand.init "Royal Flush" cards =
      Except.error "Invalid hand name: Royal Flush" := by
  constructor
  · simp only [HAND_BASE_MULTIPLIERS, List.map, List.mem_cons,
      List.not_mem_nil, or_false, not_or] at h
    obtain ⟨h1, h2, h3, h4, h5, h6, h7, h8, h9⟩ := h
    have e1 := beq_eq_false_iff_ne.mpr h1
    have e2 := beq_eq_false_iff_ne.mpr h2
    have e3 := beq_eq_false_iff_ne.mpr h3
    have e4 := beq_eq_false_iff_ne.mpr h4
    have e5 := beq_eq_false_iff_ne.mpr h5
    have e6 := beq_eq_false_iff_ne.mpr h6
    have e7 := beq_eq_false_iff_ne.mpr h7
    have e8 := beq_eq_false_iff_ne.mpr h8
    have e9 := beq_eq_false_iff_ne.mpr h9
    simp [Hand.init, HAND_BASE_MULTIPLIERS, List.lookup, e1, e2, e3, e4, e5,
      e6, e7, e8, e9]
  · rfl

/-- Witness for C3 at `name = "Royal Flush"`, `cards = []`. -/
theorem C3_invalid_hand_name_rejected_witness :
    Hand.init "Royal Flush" [] =
      Except.error "Invalid hand name: Royal Flush" :=
  (C3_invalid_hand_name_rejected "Royal Flush" [] (by decide)).2

/-- C9: `Effect.apply` with kind `increase_chips` and a present magnitude
adds exactly that amount to `chips` and leaves the rest of the ledger
alone; a missing magnitude or an unrecognized kind leaves every ledger
field unchanged (the method just prints); and the concrete instance
`Effect("increase_chips", 7)` on `chips = 3` yields `10`. -/
theorem C9_effect_apply (p : Player) (m : Int) (k : String) (v : Option Int)
    (hk : k ≠ "increase_chips" ∧ k ≠ "double_bet" ∧ k ≠ "swap_cards") :
    (Effect.apply ⟨"increase_chips", some m⟩ p).chips = p.chips + m ∧
    (Effect.apply ⟨"increase_chips", some m⟩ p).double_bet = p.double_bet ∧
    Effect.apply ⟨"increase_chips", none⟩ p = p ∧
    Effect.apply ⟨k, v⟩ p = p ∧
    (Effect.apply ⟨"increase_chips", some 7⟩ ⟨3, false⟩).chips = 10 := by
  obtain ⟨h1, h2, h3⟩ := hk
  refine ⟨?_, ?_, ?_, ?_, ?_⟩
  · simp [Effect.apply]
  · simp [Effect.apply]
  · simp [Effect.apply]
  · simp [Effect.apply, h1, h2, h3]
  · rfl

/-- Witness for C9 at `p = ⟨3, false⟩`, `m = 7`, `k = "mystery"`,
`v = none`. -/
theorem C9_effect_apply_witness :
    (Effect.apply ⟨"increase_chips", some 7⟩ (⟨3, false⟩ : Player)).chips =
        (3 : Int) + 7 ∧
      (Effect.apply ⟨"increase_chips", some 7⟩
          (⟨3, false⟩ : Player)).double_bet = false ∧
      Effect.apply ⟨"increase_chips", none⟩ (⟨3, false⟩ : Player) =
        ⟨3, false⟩ ∧
      Effect.apply ⟨"mystery", none⟩ (⟨3, false⟩ : Player) = ⟨3, false⟩ ∧
      (Effect.apply ⟨"increase_chips", some 7⟩
          (⟨3, false⟩ : Player)).chips = 10 :=
  C9_effect_apply ⟨3, false⟩ 7 "mystery" none
    ⟨by decide, by decide, by decide⟩

/-- Everything `Hand.__init__` guarantees about a successfully constructed
hand: the stored name, cards, `level = 1`, and that both base values come
from the two class tables. -/
theorem Hand.init_ok_spec {name : String} {cards : List Card} {h : Hand}
    (hinit : Hand.init name cards = Except.ok h) :
    h.name = name ∧ h.cards = cards ∧ h.level = 1 ∧
    HAND_BASE_CHIPS.lookup name = some h.base_chips ∧
    HAND_BASE_MULTIPLIERS.lookup name = some h.base_multiplier := by
  unfold Hand.init at hinit
  cases hm : HAND_BASE_MULTIPLIERS.lookup name <;> rw [hm] at hinit
  · simp at hinit
  · cases hc : HAND_BASE_CHIPS.lookup name <;> rw [hc] at hinit
    · simp at hinit
    · injection hinit with hh
      subst hh
      exact ⟨rfl, rfl, rfl, rfl, rfl⟩

/-- `level_up` iterated `n` times adds `n` to the level. -/
theorem Hand.levelUps_level (h : Hand) (n : Nat) :
    (h.levelUps n).level = h.level + n := by
  induction n with
  | zero => rfl
  | succ n ih => simp [Hand.levelUps, Hand.level_up, ih]; omega

/-- `level_up` never changes the base chip value. -/
theorem Hand.levelUps_base_chips (h : Hand) (n : Nat) :
    (h.levelUps n).base_chips = h.base_chips := by
  induction n with
  | zero => rfl
  | succ n ih => simp [Hand.levelUps, Hand.level_up, ih]

/-- `level_up` never changes the base multiplier. -/
theorem Hand.levelUps_base_multiplier (h : Hand) (n : Nat) :
    (h.levelUps n).base_multiplier = h.base_multiplier := by
  induction n with
  | zero => rfl
  | succ n ih => simp [Hand.levelUps, Hand.level_up, ih]

/-- C2: on any successfully constructed hand, `calculate_chips` is
`base_chips * level` and `calculate_multiplier` is
`base_multiplier * level` with the base values taken from the two class
tables; after `n` calls to `level_up` on the fresh hand the level is
`n + 1` (incremented by exactly 1 each call, unbounded) and both results
are exactly `(n + 1)` times their level-1 values. -/
theorem C2_hand_linear_scaling (name : String) (cards : List Card)
    (h : Hand) (n : Nat) (hinit : Hand.init name cards = Except.ok h) :
    HAND_BASE_CHIPS.lookup name = some h.base_chips ∧
    HAND_BASE_MULTIPLIERS.lookup name = some h.base_multiplier ∧
    h.calculate_chips = h.base_chips * (h.level : Int) ∧
    h.calculate_multiplier = h.base_multiplier * (h.level : ℚ) ∧
    (h.levelUps n).level = n + 1 ∧
    (h.levelUps n).calculate_chips = ((n : Int) + 1) * h.calculate_chips ∧
    (h.levelUps n).calculate_multiplier =
      ((n : ℚ) + 1) * h.calculate_multiplier := by
  obtain ⟨-, -, hlevel, hc, hm⟩ := Hand.init_ok_spec hinit
  refine ⟨hc, hm, rfl, rfl, ?_, ?_, ?_⟩
  · rw [Hand.levelUps_level, hlevel]
    omega
  · unfold Hand.calculate_chips
    rw [Hand.levelUps_level, Hand.levelUps_base_chips, hlevel]
    push_cast
    ring
  · unfold Hand.calculate_multiplier
    rw [Hand.levelUps_level, Hand.levelUps_base_multiplier, hlevel]
    push_cast
    ring

/-- Witness for C2 at `name = "Pair"`, `cards = []`, `n = 2`. -/
theorem C2_hand_linear_scaling_witness :
    HAND_BASE_CHIPS.lookup "Pair" =
        some (Hand.base_chips ⟨"Pair", [], 1, 10, 3/2⟩) ∧
      HAND_BASE_MULTIPLIERS.lookup "Pair" =
        some (Hand.base_multiplier ⟨"Pair", [], 1, 10, 3/2⟩) ∧
      Hand.calculate_chips ⟨"Pair", [], 1, 10, 3/2⟩ =
        Hand.base_chips ⟨"Pair", [], 1, 10, 3/2⟩ *
          (Hand.level ⟨"Pair", [], 1, 10, 3/2⟩ : Int) ∧
      Hand.calculate_multiplier ⟨"Pair", [], 1, 10, 3/2⟩ =
        Hand.base_multiplier ⟨"Pair", [], 1, 10, 3/2⟩ *
          (Hand.level ⟨"Pair", [], 1, 10, 3/2⟩ : ℚ) ∧
      (Hand.levelUps ⟨"Pair", [], 1, 10, 3/2⟩ 2).level = 2 + 1 ∧
      (Hand.levelUps ⟨"Pair", [], 1, 10, 3/2⟩ 2).calculate_chips =
        ((2 : Nat) + 1 : Int) *
          Hand.calculate_chips ⟨"Pair", [], 1, 10, 3/2⟩ ∧
      (Hand.levelUps ⟨"Pair", [], 1, 10, 3/2⟩ 2).calculate_multiplier =
        ((2 : Nat) + 1 : ℚ) *
          Hand.calculate_multiplier ⟨"Pair", [], 1, 10, 3/2⟩ :=
  C2_hand_linear_scaling "Pair" [] ⟨"Pair", [], 1, 10, 3/2⟩ 2 rfl

/-- C6: `PlayState.is_terminal` is true exactly when the current score has
reached the required score or no rounds remain; it is a pure read of two
attributes (embedded as a function, so it cannot mutate state); and the
three concrete instances from the claim hold. -/
theorem C6_play_is_terminal (s : PlayState) :
    (s.is_terminal = true ↔
      s.current_score ≥ s.required_score ∨ s.rounds_remaining ≤ 0) ∧
    (PlayState.init [] 0 1 100 100 3 [] []).is_terminal = true ∧
    (PlayState.init [] 0 1 100 0 0 [] []).is_terminal = true ∧
    (PlayState.init [] 0 1 100 0 3 [] []).is_terminal = false := by
  refine ⟨?_, by decide, by decide, by decide⟩
  simp [PlayState.is_terminal]

/-- The spec's description of `get_actions`: the names of the shop items
whose cost is at most the current money, in shop order. -/
def affordableNamesSpec (s : BuyState) : List String :=
  (s.shop_items.filter fun item => decide (item.cost ≤ s.money)).map
    Item.name

/-- C7: `BuyState.get_actions` returns exactly the names of the affordable
shop items in the original shop order (it coincides with the spec-side
filter-then-map), and on the concrete shop
`[{A, 5}, {B, 50}]` with money 10 it returns exactly `["A"]`. -/
theorem C7_buy_get_actions (s : BuyState) :
    s.get_actions = affordableNamesSpec s ∧
    (BuyState.init [⟨"A", 5⟩, ⟨"B", 50⟩] 10 [] 0 1).get_actions =
      ["A"] := by
  constructor
  · unfold BuyState.get_actions affordableNamesSpec
    induction s.shop_items with
    | nil => rfl
    | cons hd tl ih =>
      by_cases hc : hd.cost ≤ s.money
      · simpa [List.filterMap_cons, List.filter_cons, hc] using ih
      · simpa [List.filterMap_cons, List.filter_cons, hc] using ih
  · rfl

/-- C8: `BuyState.simulate` returns reward 0 and the unchanged state when
no shop item is affordable; otherwise it returns `cost / 10` for some shop
item whose cost is at most the money; and in every case the post-state is
the input state (no purchase, no mutation). -/
theorem C8_buy_simulate (s : BuyState) (choice : Nat) :
    ((s.shop_items.filter fun item => decide (item.cost ≤ s.money)) = [] →
      s.simulate choice = (0, s)) ∧
    ((s.shop_items.filter fun item => decide (item.cost ≤ s.money)) ≠ [] →
      ∃ item, item ∈ s.shop_items ∧ item.cost ≤ s.money ∧
        s.simulate choice = ((item.cost : ℚ) / 10, s)) ∧
    (s.simulate choice).2 = s := by
  refine ⟨?_, ?_, ?_⟩
  · intro he
    simp [BuyState.simulate, he]
  · intro hne
    have hlen : 0 <
        (s.shop_items.filter fun item => decide (item.cost ≤ s.money)).length :=
      List.length_pos.mpr hne
    have hi : choice %
        (s.shop_items.filter fun item => decide (item.cost ≤ s.money)).length <
        (s.shop_items.filter fun item => decide (item.cost ≤ s.money)).length :=
      Nat.mod_lt _ hlen
    refine ⟨(s.shop_items.filter fun item =>
      decide (item.cost ≤ s.money)).getD (choice %
        (s.shop_items.filter fun item => decide (item.cost ≤ s.money)).length)
        ⟨"", 0⟩, ?_, ?_, ?_⟩
    · have hmem : (s.shop_items.filter fun item =>
          decide (item.cost ≤ s.money)).getD (choice %
            (s.shop_items.filter fun item => decide (item.cost ≤ s.money)).length)
            ⟨"", 0⟩ ∈ s.shop_items.filter fun item =>
            decide (item.cost ≤ s.money) := by
        rw [List.getD_eq_getElem _ _ hi]
        exact List.getElem_mem hi
      exact (List.mem_filter.mp hmem).1
    · have hmem : (s.shop_items.filter fun item =>
          decide (item.cost ≤ s.money)).getD (choice %
            (s.shop_items.filter fun item => decide (item.cost ≤ s.money)).length)
            ⟨"", 0⟩ ∈ s.shop_items.filter fun item =>
            decide (item.cost ≤ s.money) := by
        rw [List.getD_eq_getElem _ _ hi]
        exact List.getElem_mem hi
      exact of_decide_eq_true (List.mem_filter.mp hmem).2
    · have hne' : (s.shop_items.filter fun item =>
          decide (item.cost ≤ s.money)).isEmpty = false := by
        simpa [List.isEmpty_iff] using hne
      simp [BuyState.simulate, hne']
  · by_cases he :
      (s.shop_items.filter fun item => decide (item.cost ≤ s.money)) = []
    · simp [BuyState.simulate, he]
    · have hne' : (s.shop_items.filter fun item =>
          decide (item.cost ≤ s.money)).isEmpty = false := by
        simpa [List.isEmpty_iff] using he
      simp [BuyState.simulate, hne']

/-- Witness for C8 on the shop `[{A, 5}, {B, 50}]` with money 10 and
`choice = 0`: the affordable list is nonempty and the drawn reward is
`cost / 10` for an affordable item. -/
theorem C8_buy_simulate_witness :
    ∃ item,
      item ∈ (BuyState.init [⟨"A", 5⟩, ⟨"B", 50⟩] 10 [] 0 1).shop_items ∧
      item.cost ≤ (BuyState.init [⟨"A", 5⟩, ⟨"B", 50⟩] 10 [] 0 1).money ∧
      (BuyState.init [⟨"A", 5⟩, ⟨"B", 50⟩] 10 [] 0 1).simulate 0 =
        ((item.cost : ℚ) / 10, BuyState.init [⟨"A", 5⟩, ⟨"B", 50⟩] 10 [] 0 1) :=
  (C8_buy_simulate (BuyState.init [⟨"A", 5⟩, ⟨"B", 50⟩] 10 [] 0 1) 0).2.1
    (by decide)

/-- Ticking a `BossBlinds` whose boss mode is off changes nothing. -/
theorem BossBlinds.ticks_inactive (c : BossBlinds)
    (hc : c.boss_mode_active = false) : ∀ m : Nat, c.ticks m = c := by
  intro m
  induction m with
  | zero => rfl
  | succ m ih =>
    rw [BossBlinds.ticks, ih]
    unfold BossBlinds.increase_boss_blinds
    rw [hc]
    simp

/-- Below the escalation threshold, each tick from a zero counter only
advances the round counter. -/
theorem BossBlinds.ticks_lt_threshold (b : BossBlinds) (n : Nat)
    (hact : b.boss_mode_active = true) (hrc : b.round_counter = 0)
    (hn : b.difficulty_level * b.escalation_rate = (n : Int)) :
    ∀ k : Nat, k < n → b.ticks k = { b with round_counter := (k : Int) } := by
  intro k
  induction k with
  | zero =>
    intro _
    have h0 : ((0 : Nat) : Int) = b.round_counter := by
      rw [hrc]
      rfl
    show b = { b with round_counter := ((0 : Nat) : Int) }
    rw [h0]
  | succ k ih =>
    intro hk
    have hk' : k < n := Nat.lt_of_succ_lt hk
    rw [BossBlinds.ticks, ih hk']
    unfold BossBlinds.increase_boss_blinds
    have hcond : ¬((k : Int) + 1 ≥ b.difficulty_level * b.escalation_rate) := by
      rw [hn]
      have : (k : Int) + 1 < (n : Int) := by exact_mod_cast hk
      omega
    simp only [hact, if_true]
    simp only [hcond, if_false, if_neg hcond]
    cases b
    simp_all

/-- C4 (amended with a positive threshold): from an active `BossBlinds`
with a zero round counter whose threshold `difficulty_level *
escalation_rate` equals `n ≥ 1`, exactly `n` calls to
`increase_boss_blinds` set each blind to `min(blind + 5, max_blind_cap)`
and reset the counter to 0; any smaller number of calls leaves both blinds
unchanged; and any number of calls on an inactive `BossBlinds` changes
nothing at all.  (Without `n ≥ 1` the claim is false: with threshold 0,
zero calls change nothing, yet the claim demands an increase — see the
counterexample.) -/
theorem C4_boss_tick_threshold (b : BossBlinds) (n : Nat)
    (hact : b.boss_mode_active = true) (hrc : b.round_counter = 0)
    (hn : b.difficulty_level * b.escalation_rate = (n : Int))
    (hpos : 1 ≤ n) :
    (b.ticks n).small_blind = min (b.small_blind + 5) b.max_blind_cap ∧
    (b.ticks n).big_blind = min (b.big_blind + 5) b.max_blind_cap ∧
    (b.ticks n).round_counter = 0 ∧
    (∀ k : Nat, k < n → (b.ticks k).small_blind = b.small_blind ∧
      (b.ticks k).big_blind = b.big_blind) ∧
    (∀ (c : BossBlinds) (m : Nat), c.boss_mode_active = false →
      c.ticks m = c) := by
  obtain ⟨j, rfl⟩ : ∃ j, n = j + 1 := ⟨n - 1, by omega⟩
  have hstep : b.ticks (j + 1) =
      ({ b with round_counter := (j : Int) } : BossBlinds).increase_boss_blinds := by
    rw [BossBlinds.ticks,
      BossBlinds.ticks_lt_threshold b (j + 1) hact hrc hn j (by omega)]
  have hcond : ((j : Int) + 1 ≥ b.difficulty_level * b.escalation_rate) := by
    rw [hn]
    push_cast
    omega
  refine ⟨?_, ?_, ?_, ?_, ?_⟩
  · rw [hstep]
    unfold BossBlinds.increase_boss_blinds
    simp only [hact, if_true, hcond, if_pos hcond]
  · rw [hstep]
    unfold BossBlinds.increase_boss_blinds
    simp only [hact, if_true, hcond, if_pos hcond]
  · rw [hstep]
    unfold BossBlinds.increase_boss_blinds
    simp only [hact, if_true, hcond, if_pos hcond]
  · intro k hk
    rw [BossBlinds.ticks_lt_threshold b (j + 1) hact hrc hn k hk]
    exact ⟨rfl, rfl⟩
  · exact fun c m hc => BossBlinds.ticks_inactive c hc m

/-- C10: invoking `is_terminal`, `get_actions` or `simulate` on the
abstract `GameState` base, or `apply_effect` on the abstract `Consumable`
base, always raises `NotImplementedError` and leaves all state (the object
and, for `apply_effect`, the game-state ledger) unchanged. -/
theorem C10_abstract_base_raises (g : NodeAttrs) (c : Consumable)
    (gs : Player) :
    GameState.is_terminal g = (Except.error "NotImplementedError", g) ∧
    GameState.get_actions g = (Except.error "NotImplementedError", g) ∧
    GameState.simulate g = (Except.error "NotImplementedError", g) ∧
    Consumable.apply_effect c gs =
      (Except.error "Each consumable card must implement its own effect.",
       gs) := by
  exact ⟨rfl, rfl, rfl, rfl⟩

/-- Witness for C4 on `BossBlinds(10, 20, 2, 100, 1)` with boss mode
activated, threshold `1 * 2 = 2`. -/
theorem C4_boss_tick_threshold_witness :
    (((BossBlinds.init 10 20 2 100 1 []).activate_boss_mode).ticks
        2).small_blind =
      min (((BossBlinds.init 10 20 2 100 1
          []).activate_boss_mode).small_blind + 5)
        ((BossBlinds.init 10 20 2 100 1
          []).activate_boss_mode).max_blind_cap ∧
    (((BossBlinds.init 10 20 2 100 1 []).activate_boss_mode).ticks
        2).big_blind =
      min (((BossBlinds.init 10 20 2 100 1
          []).activate_boss_mode).big_blind + 5)
        ((BossBlinds.init 10 20 2 100 1
          []).activate_boss_mode).max_blind_cap ∧
    (((BossBlinds.init 10 20 2 100 1 []).activate_boss_mode).ticks
        2).round_counter = 0 := by
  have H := C4_boss_tick_threshold
    ((BossBlinds.init 10 20 2 100 1 []).activate_boss_mode) 2
    (by decide) (by decide) (by decide) (by decide)
  exact ⟨H.1, H.2.1, H.2.2.1⟩

/-- Counterexample for C4 as stated: `BossBlinds(10, 20, 0, 100, 1)` with
boss mode activated satisfies the claim's hypotheses (active, zero round
counter) and has threshold `1 * 0 = 0`, so "exactly `difficulty_level *
escalation_rate` ticks" is zero ticks — which change nothing, while the
claim demands `small_blind` become `min(10 + 5, 100) = 15`. -/
theorem C4_boss_tick_threshold_counterexample :
    ((BossBlinds.init 10 20 0 100 1
        []).activate_boss_mode).boss_mode_active = true ∧
    ((BossBlinds.init 10 20 0 100 1
        []).activate_boss_mode).round_counter = 0 ∧
    ((BossBlinds.init 10 20 0 100 1
          []).activate_boss_mode).difficulty_level *
        ((BossBlinds.init 10 20 0 100 1
          []).activate_boss_mode).escalation_rate = ((0 : Nat) : Int) ∧
    ¬((((BossBlinds.init 10 20 0 100 1 []).activate_boss_mode).ticks
          0).small_blind =
        min (((BossBlinds.init 10 20 0 100 1
            []).activate_boss_mode).small_blind + 5)
          ((BossBlinds.init 10 20 0 100 1
            []).activate_boss_mode).max_blind_cap) := by
  decide

/-- One method call keeps both blinds at or below the cap and never moves
the cap. -/
theorem BossBlinds.applyOp_preserves_cap (b : BossBlinds) (op : BossOp)
    (hs : b.small_blind ≤ b.max_blind_cap)
    (hb : b.big_blind ≤ b.max_blind_cap) :
    (b.applyOp op).small_blind ≤ (b.applyOp op).max_blind_cap ∧
    (b.applyOp op).big_blind ≤ (b.applyOp op).max_blind_cap ∧
    (b.applyOp op).max_blind_cap = b.max_blind_cap := by
  cases op with
  | activate => exact ⟨hs, hb, rfl⟩
  | deactivate => exact ⟨hs, hb, rfl⟩
  | applyRules => exact ⟨hs, hb, rfl⟩
  | tick =>
    show b.increase_boss_blinds.small_blind ≤
        b.increase_boss_blinds.max_blind_cap ∧
      b.increase_boss_blinds.big_blind ≤
        b.increase_boss_blinds.max_blind_cap ∧
      b.increase_boss_blinds.max_blind_cap = b.max_blind_cap
    unfold BossBlinds.increase_boss_blinds
    by_cases hm : b.boss_mode_active
    · by_cases hcond :
          b.round_counter + 1 ≥ b.difficulty_level * b.escalation_rate
      · simp [hm, hcond, min_le_right]
      · simp [hm, hcond, hs, hb]
    · simp [hm, hs, hb]

/-- The cap invariant is preserved along any call sequence. -/
theorem BossBlinds.runOps_cap_invariant (ops : List BossOp) :
    ∀ b : BossBlinds, b.small_blind ≤ b.max_blind_cap →
      b.big_blind ≤ b.max_blind_cap →
      (b.runOps ops).small_blind ≤ (b.runOps ops).max_blind_cap ∧
      (b.runOps ops).big_blind ≤ (b.runOps ops).max_blind_cap ∧
      (b.runOps ops).max_blind_cap = b.max_blind_cap := by
  induction ops with
  | nil => exact fun b hs hb => ⟨hs, hb, rfl⟩
  | cons op rest ih =>
    intro b hs hb
    obtain ⟨h1, h2, h3⟩ := BossBlinds.applyOp_preserves_cap b op hs hb
    obtain ⟨g1, g2, g3⟩ := ih (b.applyOp op) h1 h2
    exact ⟨g1, g2, g3.trans h3⟩

/-- C5 (amended with in-cap initial blinds): if a `BossBlinds` is
constructed with `small_blind ≤ max_blind_cap` and
`big_blind ≤ max_blind_cap`, then in every state reachable by any sequence
of `activate_boss_mode`, `deactivate_boss_mode`, `increase_boss_blinds`
and `apply_boss_rules` calls, neither blind ever exceeds `max_blind_cap`.
(Without the initial bound the claim is false: the constructor does not
clamp, so `BossBlinds(200, 300, 1, 100)` already violates it with the
empty call sequence — see the counterexample.) -/
theorem C5_blinds_never_exceed_cap (sb bb er cap dl : Int)
    (sr : List (String × Int)) (ops : List BossOp)
    (hs : sb ≤ cap) (hb : bb ≤ cap) :
    ((BossBlinds.init sb bb er cap dl sr).runOps ops).small_blind ≤ cap ∧
    ((BossBlinds.init sb bb er cap dl sr).runOps ops).big_blind ≤ cap := by
  obtain ⟨h1, h2, h3⟩ :=
    BossBlinds.runOps_cap_invariant ops (BossBlinds.init sb bb er cap dl sr)
      hs hb
  rw [h3] at h1 h2
  exact ⟨h1, h2⟩

/-- Witness for C5 on `BossBlinds(10, 20, 1, 100, 1)` with the sequence
activate-then-tick. -/
theorem C5_blinds_never_exceed_cap_witness :
    ((BossBlinds.init 10 20 1 100 1 []).runOps
        [BossOp.activate, BossOp.tick]).small_blind ≤ 100 ∧
    ((BossBlinds.init 10 20 1 100 1 []).runOps
        [BossOp.activate, BossOp.tick]).big_blind ≤ 100 :=
  C5_blinds_never_exceed_cap 10 20 1 100 1 []
    [BossOp.activate, BossOp.tick] (by decide) (by decide)

/-- Counterexample for C5 as stated: the constructor performs no clamping,
so `BossBlinds(200, 300, 1, 100)` is reachable (empty call sequence) with
`small_blind = 200 > 100 = max_blind_cap`. -/
theorem C5_blinds_never_exceed_cap_counterexample :
    ¬(((BossBlinds.init 200 300 1 100 1 []).runOps []).small_blind ≤
        ((BossBlinds.init 200 300 1 100 1 []).runOps []).max_blind_cap) := by
  decide

end BalatroBot
